import Mathlib

/-!
Verification development for the parameter-declaration subsystem of
`mvpa2/base/param.py`: the constraint algebra (`EnsureInt`, `EnsureFloat`,
`EnsureBool`, `EnsureChoice`, `EnsureRange`, `OrConstrainer`,
`AndConstrainer`) and the `Parameter` class (`__init__`, `_set`,
`reset_value`, `_set_default`, `is_default`, `_paramdoc`).

The embedding is shallow: Python values become the inductive `PyVal`
(scalars, plain lists of scalars, 1-d numpy arrays of scalars; nested
containers are outside the modelled scope), Python exceptions become the
inductive `PyErr`, and each method becomes a Lean function over an explicit
`ParamState`.  CPython object identity (`is`) is modelled by tagging every
value with a numeric object id (`Obj`); fresh ids are drawn from a counter
threaded through the operations, and the singleton objects `None`, `True`
and `False` are identified by value, matching CPython.
-/

/-- Python scalar values: `None`, `bool`, `int`, `float`, `str`.
Floats are modelled as exact rationals; the code under test only compares
them and converts them, it never does float arithmetic. -/
inductive PyScalar where
  | none
  | bool (b : Bool)
  | int (n : Int)
  | float (q : Rat)
  | str (s : String)
deriving DecidableEq, Repr

/-- Python values as they flow through `param.py`: scalars, plain lists of
scalars (what Python 2 `map` returns), and 1-d numpy arrays of scalars. -/
inductive PyVal where
  | none
  | bool (b : Bool)
  | int (n : Int)
  | float (q : Rat)
  | str (s : String)
  | list (xs : List PyScalar)
  | arr (xs : List PyScalar)
deriving DecidableEq, Repr

/-- Numeric view of a scalar: Python treats `bool` as an `int` subtype, so
`True == 1` and `False == 0`. -/
def toRatS : PyScalar → Option Rat
  | .bool b => some (if b then 1 else 0)
  | .int n => some (n : Rat)
  | .float q => some q
  | _ => Option.none

/-- Numeric view of a value. -/
def toRatV : PyVal → Option Rat
  | .bool b => some (if b then 1 else 0)
  | .int n => some (n : Rat)
  | .float q => some q
  | _ => Option.none

/-- Python `==` on scalars: numeric cross-type equality, string equality,
`None` equal only to itself; everything else unequal. -/
def pyEqScalar (a b : PyScalar) : Bool :=
  match toRatS a, toRatS b with
  | some x, some y => decide (x = y)
  | _, _ =>
    match a, b with
    | .none, .none => true
    | .str s, .str t => decide (s = t)
    | _, _ => false

/-- Elementwise deep equality of two scalar sequences. -/
def pyEqListS (xs ys : List PyScalar) : Bool :=
  decide (xs.length = ys.length) && (List.zipWith pyEqScalar xs ys).all id

/-- Python `==` on values in a scalar (truth-valued) context.  Container
equality is deep elementwise equality; a container never equals a scalar. -/
def pyEqBool (a b : PyVal) : Bool :=
  match toRatV a, toRatV b with
  | some x, some y => decide (x = y)
  | _, _ =>
    match a, b with
    | .none, .none => true
    | .str s, .str t => decide (s = t)
    | .list xs, .list ys => pyEqListS xs ys
    | .arr xs, .arr ys => pyEqListS xs ys
    | _, _ => false

/-- Embed a scalar into `PyVal`. -/
def toValS : PyScalar → PyVal
  | .none => .none
  | .bool b => .bool b
  | .int n => .int n
  | .float q => .float q
  | .str s => .str s

/-- Result of a Python `!=` comparison as used in `Parameter._set`: either a
plain boolean or (when numpy broadcasting is involved) an elementwise array
of booleans. -/
inductive NeResult where
  | scalar (b : Bool)
  | elems (bs : List Bool)
deriving DecidableEq, Repr

/-- Python `!=` as evaluated by `self._value != val` in `Parameter._set`.
If a numpy array is involved the comparison broadcasts elementwise (arrays
of mismatched length compare as scalar `True`); plain lists and scalars
give a boolean. -/
def pyNe (a b : PyVal) : NeResult :=
  match a, b with
  | .arr xs, .arr ys =>
    if xs.length = ys.length then
      .elems (List.zipWith (fun x y => !(pyEqScalar x y)) xs ys)
    else .scalar true
  | .arr xs, .list ys =>
    if xs.length = ys.length then
      .elems (List.zipWith (fun x y => !(pyEqScalar x y)) xs ys)
    else .scalar true
  | .list xs, .arr ys =>
    if xs.length = ys.length then
      .elems (List.zipWith (fun x y => !(pyEqScalar x y)) xs ys)
    else .scalar true
  | .arr xs, w => .elems (xs.map (fun x => !(pyEqBool (toValS x) w)))
  | w, .arr ys => .elems (ys.map (fun y => !(pyEqBool w (toValS y))))
  | a, b => .scalar (!(pyEqBool a b))

/-- The change predicate of `Parameter._set`:
`(isarray and np.any(different_value)) or ((not isarray) and different_value)`. -/
def isDifferent : NeResult → Bool
  | .scalar b => b
  | .elems bs => bs.any id

/-- Python exceptions raised by `param.py`, by class and message. -/
inductive PyErr where
  | valueError (msg : String)
  | typeError (msg : String)
  | validationError (msg : String)
  | runtimeError (msg : String)
deriving DecidableEq, Repr

/-- Kernel-evaluable 3-way comparison of rationals. -/
def ratCmp (x y : Rat) : Ordering :=
  if x < y then Ordering.lt else if x = y then Ordering.eq else Ordering.gt

/-- Kernel-evaluable 3-way lexicographic comparison of character lists. -/
def charsCmp : List Char → List Char → Ordering
  | [], [] => Ordering.eq
  | [], _ :: _ => Ordering.lt
  | _ :: _, [] => Ordering.gt
  | x :: xs, y :: ys =>
    if x.toNat < y.toNat then Ordering.lt
    else if x.toNat = y.toNat then charsCmp xs ys
    else Ordering.gt

/-- Python 3-way ordering of scalars (CPython 2 `default_3way_compare`):
`None` is smaller than everything, numbers compare numerically and are
smaller than non-numbers, strings compare lexicographically. -/
def pyCmpScalar (a b : PyScalar) : Ordering :=
  match toRatS a, toRatS b with
  | some x, some y => ratCmp x y
  | _, _ =>
    match a, b with
    | .none, .none => Ordering.eq
    | .none, _ => Ordering.lt
    | _, .none => Ordering.gt
    | .str s, .str t => charsCmp s.data t.data
    | .str _, _ => Ordering.gt
    | _, .str _ => Ordering.lt
    | _, _ => Ordering.eq

/-- Lexicographic ordering of scalar lists (Python 2 list comparison). -/
def pyCmpListS : List PyScalar → List PyScalar → Ordering
  | [], [] => Ordering.eq
  | [], _ :: _ => Ordering.lt
  | _ :: _, [] => Ordering.gt
  | x :: xs, y :: ys =>
    match pyCmpScalar x y with
    | Ordering.eq => pyCmpListS xs ys
    | o => o

/-- Type rank for cross-type ordering in Python 2: `None` smallest, then
numbers, then remaining types by type name (`list` before `str`). -/
def pyTypeRank : PyVal → Nat
  | .none => 0
  | .bool _ => 1
  | .int _ => 1
  | .float _ => 1
  | .list _ => 2
  | .str _ => 3
  | .arr _ => 4

/-- Python 2 3-way comparison of values, defined for everything except
numpy arrays (whose comparisons broadcast and are handled separately). -/
def pyCmpV (a b : PyVal) : Ordering :=
  match toRatV a, toRatV b with
  | some x, some y => ratCmp x y
  | _, _ =>
    match a, b with
    | .str s, .str t => charsCmp s.data t.data
    | .list xs, .list ys => pyCmpListS xs ys
    | _, _ => compare (pyTypeRank a) (pyTypeRank b)

/-- Error raised when a broadcast numpy comparison is forced into a truth
value, as `if value < self._min` would do for an array operand. -/
def ambiguousTruthErr : PyErr :=
  PyErr.valueError "The truth value of an array with more than one element is ambiguous. Use a.any() or a.all()"

/-- Truth value of Python `a < b` as used by `EnsureRange.__call__`; fails
when a numpy array operand makes the truth value ambiguous. -/
def pyLtE (a b : PyVal) : Except PyErr Bool :=
  match a, b with
  | .arr _, _ => Except.error ambiguousTruthErr
  | _, .arr _ => Except.error ambiguousTruthErr
  | a, b => Except.ok (pyCmpV a b == Ordering.lt)

/-- Truth value of Python `a > b` (the mirror comparison). -/
def pyGtE (a b : PyVal) : Except PyErr Bool :=
  match a, b with
  | .arr _, _ => Except.error ambiguousTruthErr
  | _, .arr _ => Except.error ambiguousTruthErr
  | a, b => Except.ok (pyCmpV a b == Ordering.gt)

/-- Render a float the way Python `str` renders the floats used here
(integral floats as `n.0`; non-integral rationals use a fraction form that
does not occur in any verified statement). -/
def floatStr (q : Rat) : String :=
  if q.den = 1 then toString q.num ++ ".0" else toString q.num ++ "/" ++ toString q.den

/-- Python `repr` of a scalar. -/
def pyReprS : PyScalar → String
  | .none => "None"
  | .bool b => if b then "True" else "False"
  | .int n => toString n
  | .float q => floatStr q
  | .str s => "'" ++ s ++ "'"

/-- Python `repr` of a value (lists render their elements with `repr`). -/
def pyRepr : PyVal → String
  | .none => "None"
  | .bool b => if b then "True" else "False"
  | .int n => toString n
  | .float q => floatStr q
  | .str s => "'" ++ s ++ "'"
  | .list xs => "[" ++ String.intercalate ", " (xs.map pyReprS) ++ "]"
  | .arr xs => "array([" ++ String.intercalate ", " (xs.map pyReprS) ++ "])"

/-- Python `str` / `"%s" %` of a value (like `repr` except that strings
print unquoted). -/
def pyStr : PyVal → String
  | .str s => s
  | v => pyRepr v

/-- Whitespace test for the manual trim below. -/
def isWS (c : Char) : Bool := c = ' ' || c = '\t' || c = '\n' || c = '\r'

/-- Strip leading and trailing whitespace from a character list, as the
Python number constructors do with string arguments. -/
def trimWS (cs : List Char) : List Char :=
  ((cs.dropWhile isWS).reverse.dropWhile isWS).reverse

/-- Numeric value of a digit run. -/
def digitsVal (ds : List Char) : Nat :=
  ds.foldl (fun acc c => 10 * acc + (c.toNat - 48)) 0

/-- Parse the integer literals accepted by Python 2 `int(str)`: optional
surrounding whitespace, optional sign, a nonempty digit run. -/
def parseIntPy (s : String) : Option Int :=
  let core : List Char → Option Nat := fun ds =>
    if ds ≠ [] && ds.all Char.isDigit then some (digitsVal ds) else Option.none
  match trimWS s.data with
  | '+' :: rest => (core rest).map Int.ofNat
  | '-' :: rest => (core rest).map (fun n => -(Int.ofNat n))
  | rest => (core rest).map Int.ofNat

/-- Parse the float literals accepted by Python 2 `float(str)` in the forms
`d+`, `d+.d*`, `.d+`, with optional sign and surrounding whitespace
(exponent notation is outside the modelled scope). -/
def parseFloatPy (s : String) : Option Rat :=
  let core : List Char → Option Rat := fun ds =>
    let ip := ds.takeWhile Char.isDigit
    let rest := ds.drop ip.length
    match rest with
    | [] => if ip ≠ [] then some ((digitsVal ip : Int) : Rat) else Option.none
    | '.' :: fp =>
      if fp.all Char.isDigit && (ip ≠ [] || fp ≠ []) then
        some (mkRat (digitsVal ip * 10 ^ fp.length + digitsVal fp) (10 ^ fp.length))
      else Option.none
    | _ => Option.none
  match trimWS s.data with
  | '+' :: rest => core rest
  | '-' :: rest => (core rest).map Neg.neg
  | rest => core rest

/-- Truncation toward zero, the behaviour of Python 2 `int(float)`. -/
def ratTruncToInt (q : Rat) : Int := q.num / (q.den : Int)

/-- Python 2 `int(x)` on a scalar. -/
def intOfScalar : PyScalar → Except PyErr Int
  | .int n => Except.ok n
  | .float q => Except.ok (ratTruncToInt q)
  | .bool b => Except.ok (if b then 1 else 0)
  | .str s =>
    match parseIntPy s with
    | some n => Except.ok n
    | Option.none =>
      Except.error (PyErr.valueError ("invalid literal for int() with base 10: '" ++ s ++ "'"))
  | .none => Except.error (PyErr.typeError "int() argument must be a string or a number, not 'NoneType'")

/-- Python 2 `float(x)` on a scalar. -/
def floatOfScalar : PyScalar → Except PyErr Rat
  | .float q => Except.ok q
  | .int n => Except.ok (n : Rat)
  | .bool b => Except.ok (if b then 1 else 0)
  | .str s =>
    match parseFloatPy s with
    | some q => Except.ok q
    | Option.none =>
      Except.error (PyErr.valueError ("could not convert string to float: " ++ s))
  | .none => Except.error (PyErr.typeError "float() argument must be a string or a number")

/-- A Python object: a value together with a CPython object id.  `is`
compares ids; the singletons `None`, `True`, `False` are identified by
value (CPython keeps one object for each). -/
structure Obj where
  v : PyVal
  id : Nat
deriving DecidableEq, Repr

/-- The `None` object (a singleton; its id is irrelevant and fixed at 0). -/
def noneObj : Obj := ⟨PyVal.none, 0⟩

/-- Python `is`.  Ids decide identity for ordinary objects; `None` and the
two booleans are singletons, so they are identical whenever their values
agree.  `a.v = b.v` is conjoined because distinct values can never inhabit
one object (values here are immutable, per the class docstring). -/
def objIs (a b : Obj) : Bool :=
  match a.v, b.v with
  | .none, .none => true
  | .bool x, .bool y => x == y
  | _, _ => a.id == b.id && a.v == b.v

/-- The constraint expression tree of `param.py` as a tagged variant:
leaf validators/converters and the two combinators.  `OrConstrainer` and
`AndConstrainer` take a sequence whose entries are constraints or the
literal `None` sentinel, hence `List (Option Constraint)`. -/
inductive Constraint where
  | ensureValue
  | ensureInt
  | ensureFloat
  | ensureBool
  | ensureChoice (allowed : List PyVal)
  | ensureRange (mn mx : Option PyVal)
  | orC (cs : List (Option Constraint))
  | andC (cs : List (Option Constraint))

/-- `EnsureChoice.__call__`: membership test `value not in self._allowed`
by Python `==`. -/
def choiceMember (v : PyVal) (allowed : List PyVal) : Bool :=
  allowed.any (fun a => pyEqBool a v)

/-- Python `repr`/`str` of the `allowed` container of an `EnsureChoice`
(modelled as a Python list). -/
def pyReprListV (xs : List PyVal) : String :=
  "[" ++ String.intercalate ", " (xs.map pyRepr) ++ "]"

/-- `EnsureInt.__call__` on an `Obj`: iterables are mapped elementwise with
`int` and give a fresh Python list; scalars are converted with `int`
(CPython returns the argument itself when it is already an exact `int`). -/
def ensureIntApply (o : Obj) (n : Nat) : (Except PyErr Obj) × Nat :=
  match o.v with
  | .list xs =>
    match xs.mapM intOfScalar with
    | Except.ok ms => (Except.ok ⟨.list (ms.map PyScalar.int), n⟩, n + 1)
    | Except.error e => (Except.error e, n)
  | .arr xs =>
    match xs.mapM intOfScalar with
    | Except.ok ms => (Except.ok ⟨.list (ms.map PyScalar.int), n⟩, n + 1)
    | Except.error e => (Except.error e, n)
  | .int _ => (Except.ok o, n)
  | .bool b => (Except.ok ⟨.int (if b then 1 else 0), n⟩, n + 1)
  | .float q => (Except.ok ⟨.int (ratTruncToInt q), n⟩, n + 1)
  | .str s =>
    match parseIntPy s with
    | some m => (Except.ok ⟨.int m, n⟩, n + 1)
    | Option.none =>
      (Except.error (PyErr.valueError ("invalid literal for int() with base 10: '" ++ s ++ "'")), n)
  | .none => (Except.error (PyErr.typeError "int() argument must be a string or a number, not 'NoneType'"), n)

/-- `EnsureFloat.__call__` on an `Obj` (CPython returns the argument itself
when it is already an exact `float`). -/
def ensureFloatApply (o : Obj) (n : Nat) : (Except PyErr Obj) × Nat :=
  match o.v with
  | .float _ => (Except.ok o, n)
  | .int m => (Except.ok ⟨.float (m : Rat), n⟩, n + 1)
  | .bool b => (Except.ok ⟨.float (if b then 1 else 0), n⟩, n + 1)
  | .str s =>
    match parseFloatPy s with
    | some q => (Except.ok ⟨.float q, n⟩, n + 1)
    | Option.none =>
      (Except.error (PyErr.valueError ("could not convert string to float: " ++ s)), n)
  | _ => (Except.error (PyErr.typeError "float() argument must be a string or a number"), n)

/-- `EnsureRange.__call__`: check `value < self._min` then
`value > self._max`, each bound optional; the value is returned unchanged
(same object). -/
def ensureRangeApply (mn mx : Option PyVal) (o : Obj) (n : Nat) : (Except PyErr Obj) × Nat :=
  match mn with
  | some m =>
    match pyLtE o.v m with
    | Except.error e => (Except.error e, n)
    | Except.ok b =>
      if b then (Except.error (PyErr.valueError ("Value must be at least " ++ pyStr m)), n)
      else
        match mx with
        | some mmax =>
          match pyGtE o.v mmax with
          | Except.error e => (Except.error e, n)
          | Except.ok bb =>
            if bb then (Except.error (PyErr.valueError ("Value must be at most " ++ pyStr mmax)), n)
            else (Except.ok o, n)
        | Option.none => (Except.ok o, n)
  | Option.none =>
    match mx with
    | some mmax =>
      match pyGtE o.v mmax with
      | Except.error e => (Except.error e, n)
      | Except.ok bb =>
        if bb then (Except.error (PyErr.valueError ("Value must be at most " ++ pyStr mmax)), n)
        else (Except.ok o, n)
    | Option.none => (Except.ok o, n)

/-- The aggregate error `OrConstrainer` raises when every child failed. -/
def allViolatedErr : PyErr := PyErr.validationError "All given constraints are violated"

/-- The error `OrConstrainer` raises for a `None` input when `None` is not
among its children. -/
def noneNotAllowedErr : PyErr := PyErr.valueError "None is not an allowed value"

mutual

/-- `__call__` of each constraint, on an object, threading the fresh-id
counter.  Mirrors `EnsureValue`/`EnsureInt`/`EnsureFloat`/`EnsureBool`/
`EnsureChoice`/`EnsureRange`/`OrConstrainer`/`AndConstrainer`. -/
def applyC : Constraint → Obj → Nat → (Except PyErr Obj) × Nat
  | .ensureValue, o, n => (Except.ok o, n)
  | .ensureInt, o, n => ensureIntApply o n
  | .ensureFloat, o, n => ensureFloatApply o n
  | .ensureBool, o, n =>
    match o.v with
    | .bool _ => (Except.ok o, n)
    | _ => (Except.error (PyErr.valueError "Value must be of type bool"), n)
  | .ensureChoice allowed, o, n =>
    if choiceMember o.v allowed then (Except.ok o, n)
    else (Except.error (PyErr.valueError ("Value is not in " ++ pyReprListV allowed)), n)
  | .ensureRange mn mx, o, n => ensureRangeApply mn mx o n
  | .orC cs, o, n =>
    if o.v = PyVal.none then
      if cs.any Option.isNone then (Except.ok noneObj, n)
      else (Except.error noneNotAllowedErr, n)
    else orLoop cs o n
  | .andC cs, o, n => andLoop cs o n

/-- The `for c in self._constraints: try: return c(value) except ...` loop
of `OrConstrainer.__call__`; the collected child errors are discarded and
the aggregate `ValidationError` is raised when the loop falls through. -/
def orLoop : List (Option Constraint) → Obj → Nat → (Except PyErr Obj) × Nat
  | [], _, n => (Except.error allViolatedErr, n)
  | c :: rest, o, n =>
    match applyOC c o n with
    | (Except.ok r, n') => (Except.ok r, n')
    | (Except.error _, n') => orLoop rest o n'

/-- The `for c in self._constraints: value = c(value)` loop of
`AndConstrainer.__call__`: the first failure propagates unchanged. -/
def andLoop : List (Option Constraint) → Obj → Nat → (Except PyErr Obj) × Nat
  | [], o, n => (Except.ok o, n)
  | c :: rest, o, n =>
    match applyOC c o n with
    | (Except.ok r, n') => andLoop rest r n'
    | (Except.error e, n') => (Except.error e, n')

/-- Call one child of a combinator.  The child `None` (the accept-null
sentinel) is not callable: `None(value)` raises `TypeError`, which the
`except` of `OrConstrainer` swallows and which propagates unhandled out of
`AndConstrainer`. -/
def applyOC : Option Constraint → Obj → Nat → (Except PyErr Obj) × Nat
  | Option.none, _, n => (Except.error (PyErr.typeError "'NoneType' object is not callable"), n)
  | some c, o, n => applyC c o n

end

/-- The pre-install state of the value slot together with the stored name
and doc.  Modelled from the spec: `IndexedCollectable.__init__`
(`mvpa2/base/state.py`) is not under `src/`; per the spec's lifecycle
(section 3) no value is installed before the constructor's initial
assignment, so the slot holds the Python `None` object, and the collectable
stores `name` and `doc` unchanged. -/
def indexedCollectableInit (name : PyVal) (doc : Option String) : PyVal × Option String × Obj :=
  (name, doc, noneObj)

/-- The mutable state of one `Parameter` instance. -/
structure ParamState where
  /-- `self.__default` -/
  dflt : Obj
  /-- `self._ro` -/
  ro : Bool
  /-- `self._constraints` (`None` means no constraint) -/
  constraints : Option Constraint
  /-- `self._value` -/
  value : Obj
  /-- `self._isset` -/
  isset : Bool
  /-- `self.name` -/
  name : PyVal
  /-- `self.__doc__` -/
  doc : Option String
  /-- the extra keyword arguments injected as attributes in `__init__` -/
  metadata : List (String × PyVal)
  /-- fresh-id counter for newly created objects -/
  nextId : Nat

/-- `if self._constraints is not None: val = self._constraints(val)` at the
top of `Parameter._set`. -/
def applyConstraints (cs : Option Constraint) (o : Obj) (n : Nat) : (Except PyErr Obj) × Nat :=
  match cs with
  | Option.none => (Except.ok o, n)
  | some c => applyC c o n

/-- `Parameter._set(self, val, init=False)`: apply the constraints, compute
the `different_value` comparison, enforce the read-only flag (unless on the
initialization path), and assign `_value`/`_isset` only when the new value
is different.  Returns the resulting state together with the raised
exception, if any (on an exception no field other than the id counter has
been touched, as in the source). -/
def paramSet (st : ParamState) (o : Obj) (init : Bool) : ParamState × Option PyErr :=
  match applyConstraints st.constraints o st.nextId with
  | (Except.error e, n') => ({st with nextId := n'}, some e)
  | (Except.ok val, n') =>
    let st := {st with nextId := n'}
    let dv := pyNe st.value.v val.v
    if st.ro && !init then
      (st, some (PyErr.runtimeError
        ("Attempt to set read-only parameter " ++ pyStr st.name ++ " to " ++ pyStr val.v)))
    else if isDifferent dv then
      ({st with value := val, isset := !init}, Option.none)
    else (st, Option.none)

/-- `self._value is self.default`, the `is_default` property. -/
def is_default (st : ParamState) : Bool := objIs st.value st.dflt

/-- `self._value == self.__default`, the `equal_default` property. -/
def equal_default (st : ParamState) : Bool := pyEqBool st.value.v st.dflt.v

/-- `Parameter.reset_value`: when the current value is not bound to the
default and the parameter is not read-only, set `_isset` and assign the
default through the `value` property setter (note that `_isset = True`
sticks even if the subsequent `_set` raises, exactly as in the source). -/
def reset_value (st : ParamState) : ParamState × Option PyErr :=
  if !(is_default st) && !st.ro then
    let st1 := {st with isset := true}
    paramSet st1 st1.dflt false
  else (st, Option.none)

/-- `Parameter._set_default`: remember whether the current value was bound
to the old default, replace the default, and if it was, reset to the new
default and clear `_isset` (the clearing is skipped when `reset_value`
raises, as in the source). -/
def set_default (st : ParamState) (newDef : Obj) : ParamState × Option PyErr :=
  let wasdefault := is_default st
  let st1 := {st with dflt := newDef}
  if wasdefault then
    match reset_value st1 with
    | (st2, Option.none) => ({st2 with isset := false}, Option.none)
    | (st2, some e) => (st2, some e)
  else (st1, Option.none)

/-- `Parameter.__init__(default, constraints=None, ro=False, index=None,
value=None, name=None, doc=None, **kwargs)`.  The keyword extras are
injected as attributes (kept here as `metadata`; implementation attribute
names are assumed not to collide), the base collectable is initialised,
`_isset` is cleared, the initial value (the default when the `value`
argument is `None`) is installed via `_set(..., init=True)`, and finally
the debug-mode check rejects the reserved keyword name `'val'`. -/
def paramInit (dflt : Obj) (constraints : Option Constraint) (ro : Bool) (value : Obj)
    (name : PyVal) (doc : Option String) (kwargs : List (String × PyVal)) (n : Nat) :
    ParamState × Option PyErr :=
  let (nm, dc, v0) := indexedCollectableInit name doc
  let st0 : ParamState :=
    { dflt := dflt, ro := ro, constraints := constraints, value := v0,
      isset := false, name := nm, doc := dc, metadata := kwargs, nextId := n }
  let (st1, e) :=
    if value.v = PyVal.none then paramSet st0 dflt true else paramSet st0 value true
  match e with
  | some err => (st1, some err)
  | Option.none =>
    if kwargs.any (fun kv => kv.1 = "val") then
      (st1, some (PyErr.valueError "'val' property name is illegal."))
    else (st1, Option.none)

/-- The guard `hasattr(paramsdoc, 'allowedtype')` in `Parameter._paramdoc`.
At that point `paramsdoc` is the freshly built name string, and a Python
`str` object has no attribute `allowedtype`, so the test is always false
(the body would have read `self.allowedtype`). -/
def strHasAttrAllowedtype : Bool := false

/-- `min_str`/`max_str` of `EnsureRange.get_doc`: an absent bound renders
as the given infinity text. -/
def boundStr (dfl : String) (b : Option PyVal) : String :=
  match b with
  | Option.none => dfl
  | some m => pyStr m

mutual

/-- `get_doc` of each constraint.  `Option.none` stands for a call that
yields Python `None` (the `EnsureValue` base) or raises (a combinator whose
child documentation is `None` makes `str.join` raise `TypeError`); either
way the caller's surrounding `try` drops the whole paragraph. -/
def constraintGetDoc : Constraint → Option String
  | .ensureValue => Option.none
  | .ensureInt => some "value must be convertible to type int"
  | .ensureFloat => some "value must be convertible to type float"
  | .ensureBool => some "value must be of type bool"
  | .ensureChoice allowed => some ("value must be in " ++ pyReprListV allowed)
  | .ensureRange mn mx =>
    some ("value must be in range [" ++ boundStr "-inf" mn ++ ", " ++ boundStr "inf" mx ++ "]")
  | .orC cs =>
    (childDocs cs).map (fun ds =>
      "(" ++ (if cs.any Option.isNone then "None or " else "") ++
        String.intercalate " or " ds ++ ")")
  | .andC cs =>
    (childDocs cs).map (fun ds => "(" ++ String.intercalate ", " ds ++ ")")

/-- Documentation of a combinator's children: the `None` sentinel has no
`get_doc` attribute and is filtered by the `hasattr` test in the source. -/
def childDocs : List (Option Constraint) → Option (List String)
  | [] => some []
  | Option.none :: rest => childDocs rest
  | some c :: rest =>
    match constraintGetDoc c, childDocs rest with
    | some d, some ds => some (d :: ds)
    | _, _ => Option.none

end

/-- Python `str.strip()`. -/
def stripPy (s : String) : String := String.mk (trimWS s.data)

/-- `doc.endswith('.')`. -/
def endsWithDot (s : String) : Bool := s.data.getLast? == some '.'

/-- One pass of `_whitespace_re.sub(' ', doc)` for the pattern
`\n\s+|^\s+`: a newline followed by whitespace, and leading whitespace,
collapse to a single space.  The boolean records being inside a matched
whitespace run. -/
def wsCollapseGo : List Char → Bool → List Char
  | [], _ => []
  | c :: rest, true =>
    if isWS c then wsCollapseGo rest true else c :: wsCollapseGo rest false
  | c :: rest, false =>
    if c = '\n' && (match rest with | r :: _ => isWS r | [] => false) then
      ' ' :: wsCollapseGo rest true
    else c :: wsCollapseGo rest false

/-- `_whitespace_re.sub(' ', doc)`. -/
def wsCollapse (s : String) : String :=
  match s.data with
  | [] => ""
  | c :: rest =>
    String.mk (if isWS c then ' ' :: wsCollapseGo rest true else wsCollapseGo (c :: rest) false)

/-- Split a character list into whitespace-separated words. -/
def splitWords (cs : List Char) : List String :=
  let step : Char → (List Char × List String) → (List Char × List String) := fun c acc =>
    if isWS c then ([], if acc.1 = [] then acc.2 else String.mk acc.1 :: acc.2)
    else (c :: acc.1, acc.2)
  let fin := cs.foldr step ([], [])
  if fin.1 = [] then fin.2 else String.mk fin.1 :: fin.2

/-- Greedy fill of `textwrap.wrap`: add the next word to the current line
when it still fits in `width`, else start a new line (breaking of single
overlong words is not modelled; no verified statement wraps one). -/
def wrapFill (width : Nat) : List String → String → List String
  | [], cur => [cur]
  | w :: rest, cur =>
    if cur.length + 1 + w.length ≤ width then wrapFill width rest (cur ++ " " ++ w)
    else cur :: wrapFill width rest w

/-- `textwrap.wrap(text, width=width, replace_whitespace=True)`: remaining
whitespace becomes spaces, the text is split into words and greedily
filled; empty text gives no lines. -/
def textwrapWrap (text : String) (width : Nat) : List String :=
  match splitWords (text.data.map (fun c => if isWS c then ' ' else c)) with
  | [] => []
  | w :: ws => wrapFill width ws w

/-- `Parameter._paramdoc(self, indent='  ', width=70)`: the name line
(the allowed-type annotation guard is the always-false `hasattr` on the
string), then the wrapped paragraph built from the doc string, the
constraint documentation and the default, all joined with newlines.  A
`None` doc string or a `None` constraint documentation raises inside the
`try` and drops the paragraph. -/
def paramdoc (st : ParamState) (indent : String) (width : Nat) : String :=
  let pd0 := pyStr st.name
  let pd :=
    if strHasAttrAllowedtype then
      pd0 ++ " : " ++ pyStr ((List.lookup "allowedtype" st.metadata).getD PyVal.none)
    else pd0
  let rest :=
    match st.doc with
    | Option.none => []
    | some d =>
      let doc := stripPy d
      let doc := if endsWithDot doc then doc else doc ++ "."
      let doc? :=
        match st.constraints with
        | Option.none => some doc
        | some c =>
          match constraintGetDoc c with
          | some g => some (doc ++ " Constraints: " ++ g ++ ".")
          | Option.none => Option.none
      match doc? with
      | Option.none => []
      | some doc =>
        let doc := doc ++ " (Default: " ++ pyRepr st.dflt.v ++ ")"
        let doc := wsCollapse doc
        (textwrapWrap doc (width - indent.length)).map (fun x => indent ++ x)
  String.intercalate "\n" (pd :: rest)

/-- First line of a joined multi-line string. -/
def firstLine (s : String) : String := String.mk (s.data.takeWhile (fun c => c ≠ '\n'))

/-- Test for the read-only write rejection (`RuntimeError` in the source,
the spec's `ImmutableParameterError`). -/
def isRuntimeErr : Option PyErr → Bool
  | some (PyErr.runtimeError _) => true
  | _ => false

/-- Values whose installation `_set` cannot distinguish from the empty
(`None`) pre-install slot: `None` itself, and numpy object arrays whose
elements are all `None` (their broadcast `!=` against `None` is elementwise
all-false, so `np.any` reports no difference). -/
def badNone : PyVal → Bool
  | PyVal.none => true
  | PyVal.arr xs => xs.all (fun x => x == PyScalar.none)
  | _ => false

/-- The parameter state as `__init__` has it just before the initial
`_set` call (the same record `paramInit` builds internally). -/
def initState (d : Obj) (cs : Option Constraint) (ro : Bool) (nm : PyVal) (dc : Option String)
    (kw : List (String × PyVal)) (n : Nat) : ParamState :=
  { dflt := d, ro := ro, constraints := cs, value := noneObj, isset := false,
    name := nm, doc := dc, metadata := kw, nextId := n }


/-! ## Helper lemmas -/

theorem pyEqScalar_refl (a : PyScalar) : pyEqScalar a a = true := by
  cases a <;> simp [pyEqScalar, toRatS]

theorem pyEqListS_refl (xs : List PyScalar) : pyEqListS xs xs = true := by
  induction xs with
  | nil => rfl
  | cons x xs ih =>
    simp only [pyEqListS, List.zipWith_cons_cons, List.all_cons, id] at *
    simp [pyEqScalar_refl, ih]

theorem pyEqBool_refl (v : PyVal) : pyEqBool v v = true := by
  cases v with
  | list xs => exact pyEqListS_refl xs
  | arr xs => exact pyEqListS_refl xs
  | _ => simp [pyEqBool, toRatV]

theorem zipWith_ne_self_all_false (xs : List PyScalar) :
    (List.zipWith (fun x y => !(pyEqScalar x y)) xs xs).any id = false := by
  induction xs with
  | nil => rfl
  | cons x xs ih => simp [List.zipWith_cons_cons, pyEqScalar_refl, ih]

theorem isDifferent_pyNe_self (v : PyVal) : isDifferent (pyNe v v) = false := by
  cases v with
  | list xs => simp [pyNe, isDifferent, pyEqBool_refl]
  | arr xs => simp [pyNe, isDifferent, pyEqScalar_refl]
  | _ => simp [pyNe, isDifferent, pyEqBool_refl]

theorem pyEqBool_none_left (v : PyVal) (h : v ≠ PyVal.none) :
    pyEqBool PyVal.none v = false := by
  cases v <;> simp_all [pyEqBool, toRatV]

/-- A scalar other than `None` embeds to a value other than `None`. -/
theorem toValS_ne_none (x : PyScalar) (h : x ≠ PyScalar.none) :
    toValS x ≠ PyVal.none := by
  cases x <;> simp_all [toValS]

theorem isDifferent_pyNe_none (v : PyVal) (h : badNone v = false) :
    isDifferent (pyNe PyVal.none v) = true := by
  cases v with
  | none => simp [badNone] at h
  | arr xs =>
    simp only [badNone, List.all_eq_false, beq_iff_eq] at h
    obtain ⟨x, hx, hxne⟩ := h
    have hne : pyEqBool PyVal.none (toValS x) = false :=
      pyEqBool_none_left _ (toValS_ne_none x hxne)
    simp [pyNe, isDifferent, List.any_eq_true]
    exact ⟨x, hx, by simp [hne]⟩
  | list xs => simp [pyNe, isDifferent, pyEqBool, toRatV]
  | _ => simp [pyNe, isDifferent, pyEqBool, toRatV]

/-! ## Claim C6: AllOf pipes values, propagates the first error unchanged -/

/-- Claim C6 (confirmed): for every pair of constraints and every input,
`AllOf([c1,c2]).apply(v)` is `c2.apply(c1.apply(v))` when `c1` succeeds
(the counter threading included), and is exactly `c1`'s error when `c1`
fails — `c2` is never invoked and no aggregation occurs. -/
theorem C6_allOf_two (c1 c2 : Constraint) (o : Obj) (n : Nat) :
    applyC (Constraint.andC [some c1, some c2]) o n =
      match applyC c1 o n with
      | (Except.ok r, n1) => applyC c2 r n1
      | (Except.error e, n1) => (Except.error e, n1) := by
  have h0 : applyC (Constraint.andC [some c1, some c2]) o n = andLoop [some c1, some c2] o n := by
    simp [applyC]
  rw [h0]
  rcases h1 : applyC c1 o n with ⟨e1 | r1, n1⟩
  · simp [andLoop, applyOC, h1]
  · rcases h2 : applyC c2 r1 n1 with ⟨e2 | r2, n2⟩ <;>
      simp [andLoop, applyOC, h1, h2]

/-! ## Claim C1: AnyOf returns the first success, else the aggregate error -/

/-- Claim C1 (corrected; the amendment restricts the input to non-`None`
values): for a non-`None` input, `AnyOf([c1,c2]).apply(v)` returns `c1`'s
result if `c1` succeeds, else `c2`'s result if `c2` succeeds, else fails
with the aggregate `ValidationError`. -/
theorem C1_anyOf_two (c1 c2 : Constraint) (o : Obj) (n : Nat) (h : o.v ≠ PyVal.none) :
    applyC (Constraint.orC [some c1, some c2]) o n =
      match applyC c1 o n with
      | (Except.ok r, n1) => (Except.ok r, n1)
      | (Except.error _, n1) =>
        match applyC c2 o n1 with
        | (Except.ok r, n2) => (Except.ok r, n2)
        | (Except.error _, n2) => (Except.error allViolatedErr, n2) := by
  have h0 : applyC (Constraint.orC [some c1, some c2]) o n = orLoop [some c1, some c2] o n := by
    simp [applyC, h]
  rw [h0]
  rcases h1 : applyC c1 o n with ⟨e1 | r1, n1⟩
  · rcases h2 : applyC c2 o n1 with ⟨e2 | r2, n2⟩ <;>
      simp [orLoop, applyOC, h1, h2]
  · simp [orLoop, applyOC, h1]

/-- Witness for C1: both alternatives fail on `50` (out of range, not the
allowed choice), so the aggregate `ValidationError` is raised. -/
theorem C1_anyOf_two_witness :
    applyC (Constraint.orC [some (.ensureRange (some (.int 7)) (some (.int 44))),
      some (.ensureChoice [.str "a"])]) ⟨.int 50, 1⟩ 5 =
      (Except.error allViolatedErr, 5) := by
  rw [C1_anyOf_two (.ensureRange (some (.int 7)) (some (.int 44)))
    (.ensureChoice [.str "a"]) ⟨.int 50, 1⟩ 5 (by decide)]
  rfl

/-- Counterexample for C1 as stated: on the input `None` (with no `None`
sentinel among the children), `OrConstrainer` raises a plain `ValueError`
without invoking any child — here the first child would have succeeded, and
the raised error is not the aggregate `ValidationError`. -/
theorem C1_counterexample :
    applyC (Constraint.ensureChoice [PyVal.none]) ⟨PyVal.none, 5⟩ 10 =
      (Except.ok ⟨PyVal.none, 5⟩, 10) ∧
    applyC (Constraint.orC [some (.ensureChoice [PyVal.none]),
      some (.ensureChoice [PyVal.none])]) ⟨PyVal.none, 5⟩ 10 =
      (Except.error noneNotAllowedErr, 10) ∧
    noneNotAllowedErr ≠ allViolatedErr := by
  exact ⟨rfl, rfl, by decide⟩

/-! ## Claim C7: writing a non-different value is a no-op -/

/-- Claim C7 (confirmed): for every non-read-only parameter state, a write
through the `value` setter whose constraint-applied value is not different
from the current value (elementwise for array-like comparisons, inequality
otherwise) raises nothing and leaves `current` and `explicitlySet` — indeed
every field except the fresh-id counter — exactly as they were. -/
theorem C7_noop_write (st : ParamState) (o w : Obj) (n' : Nat)
    (hro : st.ro = false)
    (hc : applyConstraints st.constraints o st.nextId = (Except.ok w, n'))
    (hnd : isDifferent (pyNe st.value.v w.v) = false) :
    paramSet st o false = ({st with nextId := n'}, Option.none) := by
  unfold paramSet
  rw [hc]
  simp [hro, hnd]

/-- Witness for C7: re-setting the current value `7` on a parameter whose
default is `5` changes nothing and raises nothing. -/
theorem C7_noop_write_witness :
    paramSet
      { dflt := ⟨.int 5, 1⟩, ro := false, constraints := Option.none, value := ⟨.int 7, 2⟩,
        isset := true, name := PyVal.none, doc := Option.none, metadata := [], nextId := 3 }
      ⟨.int 7, 4⟩ false =
    ({ dflt := ⟨.int 5, 1⟩, ro := false, constraints := Option.none, value := ⟨.int 7, 2⟩,
       isset := true, name := PyVal.none, doc := Option.none, metadata := [], nextId := 3 },
     Option.none) := by
  exact C7_noop_write _ ⟨.int 7, 4⟩ ⟨.int 7, 4⟩ 3 rfl rfl (by decide)

/-! ## Claim C2: read-only parameters reject every post-construction write -/

/-- Claim C2 (corrected; the amendment conditions the failures on the
constraint step): construction of a read-only parameter succeeds (shown
constraint-free, for any initial value or the default), and every
subsequent write through the `value` setter whose constraint application
succeeds fails with the read-only `RuntimeError` (the spec's
`ImmutableParameterError`) — even when the written value equals the current
one — leaving `current` and `explicitlySet` (all fields but the id counter)
unchanged. -/
theorem C2_readonly (st : ParamState) (o w : Obj) (n' : Nat)
    (d v : Obj) (nm : PyVal) (dc : Option String) (m : Nat) :
    (paramInit d Option.none true v nm dc [] m).2 = Option.none ∧
    (st.ro = true → applyConstraints st.constraints o st.nextId = (Except.ok w, n') →
      paramSet st o false = ({st with nextId := n'},
        some (PyErr.runtimeError
          ("Attempt to set read-only parameter " ++ pyStr st.name ++ " to " ++ pyStr w.v)))) := by
  constructor
  · by_cases hv : v.v = PyVal.none
    · cases hd : isDifferent (pyNe noneObj.v d.v) <;>
        simp [paramInit, indexedCollectableInit, paramSet, applyConstraints, hv, hd]
    · cases hd : isDifferent (pyNe noneObj.v v.v) <;>
        simp [paramInit, indexedCollectableInit, paramSet, applyConstraints, hv, hd]
  · intro hro hc
    unfold paramSet
    rw [hc]
    simp [hro]

/-- Witness for C2: `Parameter(default=1, ro=True, value=2)` constructs
without error, and a later write of `3` (unequal) and of the current `2`
(equal) both fail with the read-only `RuntimeError`, changing nothing. -/
theorem C2_readonly_witness :
    (paramInit ⟨.int 1, 1⟩ Option.none true ⟨.int 2, 2⟩ PyVal.none Option.none [] 10).2 =
      Option.none ∧
    paramSet (paramInit ⟨.int 1, 1⟩ Option.none true ⟨.int 2, 2⟩ PyVal.none Option.none [] 10).1
      ⟨.int 3, 3⟩ false =
      ((paramInit ⟨.int 1, 1⟩ Option.none true ⟨.int 2, 2⟩ PyVal.none Option.none [] 10).1,
       some (PyErr.runtimeError "Attempt to set read-only parameter None to 3")) ∧
    paramSet (paramInit ⟨.int 1, 1⟩ Option.none true ⟨.int 2, 2⟩ PyVal.none Option.none [] 10).1
      ⟨.int 2, 4⟩ false =
      ((paramInit ⟨.int 1, 1⟩ Option.none true ⟨.int 2, 2⟩ PyVal.none Option.none [] 10).1,
       some (PyErr.runtimeError "Attempt to set read-only parameter None to 2")) := by
  refine ⟨(C2_readonly
      (paramInit ⟨.int 1, 1⟩ Option.none true ⟨.int 2, 2⟩ PyVal.none Option.none [] 10).1
      ⟨.int 3, 3⟩ ⟨.int 3, 3⟩ 10 ⟨.int 1, 1⟩ ⟨.int 2, 2⟩ PyVal.none Option.none 10).1, ?_, ?_⟩
  · have h := (C2_readonly
      (paramInit ⟨.int 1, 1⟩ Option.none true ⟨.int 2, 2⟩ PyVal.none Option.none [] 10).1
      ⟨.int 3, 3⟩ ⟨.int 3, 3⟩ 10 ⟨.int 1, 1⟩ ⟨.int 2, 2⟩ PyVal.none Option.none 10).2 rfl rfl
    exact h
  · have h := (C2_readonly
      (paramInit ⟨.int 1, 1⟩ Option.none true ⟨.int 2, 2⟩ PyVal.none Option.none [] 10).1
      ⟨.int 2, 4⟩ ⟨.int 2, 4⟩ 10 ⟨.int 1, 1⟩ ⟨.int 2, 2⟩ PyVal.none Option.none 10).2 rfl rfl
    exact h

/-- Counterexample for C2 as stated: on a read-only parameter carrying a
`BoolCheck` constraint, a write of `5` fails with the constraint's
`ValueError` — the constraint runs before the read-only test — so not every
post-construction write fails with the read-only error. -/
theorem C2_counterexample :
    (paramInit ⟨.bool true, 1⟩ (some .ensureBool) true noneObj PyVal.none Option.none [] 10).2 =
      Option.none ∧
    (paramInit ⟨.bool true, 1⟩ (some .ensureBool) true noneObj PyVal.none Option.none [] 10).1.ro =
      true ∧
    (paramSet (paramInit ⟨.bool true, 1⟩ (some .ensureBool) true noneObj PyVal.none Option.none
        [] 10).1 ⟨.int 5, 2⟩ false).2 =
      some (PyErr.valueError "Value must be of type bool") ∧
    isRuntimeErr (paramSet (paramInit ⟨.bool true, 1⟩ (some .ensureBool) true noneObj PyVal.none
        Option.none [] 10).1 ⟨.int 5, 2⟩ false).2 = false := by
  exact ⟨rfl, rfl, rfl, rfl⟩

/-! ## Claim C3: resetValue restores the default and sets explicitlySet -/

/-- Claim C3 (corrected; the amendment states the restored value as the
constraint-applied default): for every non-read-only parameter state whose
current value is not bound (identical) to its default, and whose constraint
accepts the stored default, `reset_value` raises nothing, leaves the stored
default in place, sets `explicitlySet = true` even though the value now
matches, and makes `current` not-different (equal; elementwise for arrays)
from the constraint-applied default — which is the default itself when no
constraint is present. -/
theorem C3_reset (st : ParamState) (w : Obj) (n' : Nat)
    (hd : is_default st = false) (hro : st.ro = false)
    (hc : applyConstraints st.constraints st.dflt st.nextId = (Except.ok w, n')) :
    (reset_value st).2 = Option.none ∧
    (reset_value st).1.isset = true ∧
    isDifferent (pyNe (reset_value st).1.value.v w.v) = false ∧
    (reset_value st).1.dflt = st.dflt := by
  have hrv : reset_value st = paramSet {st with isset := true} st.dflt false := by
    unfold reset_value
    rw [hd, hro]
    rfl
  rw [hrv]
  unfold paramSet
  rw [hc]
  cases hdiff : isDifferent (pyNe st.value.v w.v) <;>
    simp [hro, hdiff, isDifferent_pyNe_self]

/-- Witness for C3: an explicitly set `9` over the default `5`
(no constraint) resets back to the very default object with
`explicitlySet = true`. -/
theorem C3_reset_witness :
    (reset_value
      { dflt := ⟨.int 5, 1⟩, ro := false, constraints := Option.none, value := ⟨.int 9, 2⟩,
        isset := true, name := PyVal.none, doc := Option.none, metadata := [], nextId := 3 }).2 =
      Option.none ∧
    (reset_value
      { dflt := ⟨.int 5, 1⟩, ro := false, constraints := Option.none, value := ⟨.int 9, 2⟩,
        isset := true, name := PyVal.none, doc := Option.none, metadata := [], nextId := 3 }).1.isset =
      true ∧
    isDifferent (pyNe (reset_value
      { dflt := ⟨.int 5, 1⟩, ro := false, constraints := Option.none, value := ⟨.int 9, 2⟩,
        isset := true, name := PyVal.none, doc := Option.none, metadata := [], nextId := 3 }).1.value.v
      (PyVal.int 5)) = false ∧
    (reset_value
      { dflt := ⟨.int 5, 1⟩, ro := false, constraints := Option.none, value := ⟨.int 9, 2⟩,
        isset := true, name := PyVal.none, doc := Option.none, metadata := [], nextId := 3 }).1.dflt =
      ⟨.int 5, 1⟩ := by
  exact C3_reset _ ⟨.int 5, 1⟩ 3 rfl rfl rfl

/-- Counterexample for C3 as stated: with an `IntCoerce` constraint and the
string default `"5"`, resetting an explicitly set `7` succeeds and sets
`explicitlySet`, but installs the coerced `int 5`, which is not equal
(Python `==`) to the stored default `"5"` — the claim's `current equal to
the stored default` fails. -/
theorem C3_counterexample :
    is_default (paramInit ⟨.str "5", 1⟩ (some .ensureInt) false ⟨.int 7, 2⟩ PyVal.none
      Option.none [] 10).1 = false ∧
    (paramInit ⟨.str "5", 1⟩ (some .ensureInt) false ⟨.int 7, 2⟩ PyVal.none
      Option.none [] 10).1.ro = false ∧
    (reset_value (paramInit ⟨.str "5", 1⟩ (some .ensureInt) false ⟨.int 7, 2⟩ PyVal.none
      Option.none [] 10).1).2 = Option.none ∧
    (reset_value (paramInit ⟨.str "5", 1⟩ (some .ensureInt) false ⟨.int 7, 2⟩ PyVal.none
      Option.none [] 10).1).1.isset = true ∧
    (reset_value (paramInit ⟨.str "5", 1⟩ (some .ensureInt) false ⟨.int 7, 2⟩ PyVal.none
      Option.none [] 10).1).1.value.v = PyVal.int 5 ∧
    (reset_value (paramInit ⟨.str "5", 1⟩ (some .ensureInt) false ⟨.int 7, 2⟩ PyVal.none
      Option.none [] 10).1).1.dflt.v = PyVal.str "5" ∧
    equal_default (reset_value (paramInit ⟨.str "5", 1⟩ (some .ensureInt) false ⟨.int 7, 2⟩
      PyVal.none Option.none [] 10).1).1 = false := by
  exact ⟨rfl, rfl, rfl, rfl, rfl, rfl, rfl⟩

/-! ## Claim C4: setDefault replaces the default and conditionally resets -/

/-- `_set` never touches the stored default. -/
theorem paramSet_dflt_eq (st : ParamState) (o : Obj) (i : Bool) :
    (paramSet st o i).1.dflt = st.dflt := by
  unfold paramSet
  rcases h : applyConstraints st.constraints o st.nextId with ⟨e | r, n2⟩
  · simp [h]
  · simp only [h]
    by_cases hro : (st.ro && !i) = true
    · simp [hro]
    · simp only [Bool.not_eq_true] at hro
      cases hdiff : isDifferent (pyNe st.value.v r.v) <;> simp [hro, hdiff]

/-- `reset_value` never touches the stored default. -/
theorem reset_value_dflt_eq (st : ParamState) : (reset_value st).1.dflt = st.dflt := by
  unfold reset_value
  by_cases hg : (!(is_default st) && !st.ro) = true
  · simp only [hg, if_true]
    exact paramSet_dflt_eq {st with isset := true} st.dflt false
  · simp [hg]

/-- Claim C4 (corrected; each branch under exactly the conditions the code
imposes): `set_default` installs the new default unconditionally, even when
a later step raises.  When `current` was not bound to the old default,
`current` and `explicitlySet` are left untouched and nothing is raised
(the constraint is never invoked).  When it was bound and the parameter is
read-only, the reset is skipped: `current` stays the old default while
`explicitlySet` is still forced to `false`, with nothing raised (again no
constraint involved).  When it was bound and the parameter is writable, if
the constraint accepts the new default then nothing is raised,
`explicitlySet` is forced to `false`, and — unless the new default is the
very object already current — the constraint-applied new default is
installed as `current` (the new default itself when no constraint). -/
theorem C4_setDefault (st : ParamState) (nd w : Obj) (n' : Nat) :
    (set_default st nd).1.dflt = nd ∧
    (is_default st = false →
      (set_default st nd).1.value = st.value ∧
      (set_default st nd).1.isset = st.isset ∧
      (set_default st nd).2 = Option.none) ∧
    (is_default st = true → st.ro = true →
      set_default st nd = ({st with dflt := nd, isset := false}, Option.none)) ∧
    (is_default st = true → st.ro = false →
      applyConstraints st.constraints nd st.nextId = (Except.ok w, n') →
      (set_default st nd).2 = Option.none ∧
      (set_default st nd).1.isset = false ∧
      (objIs st.value nd = true → (set_default st nd).1.value = st.value) ∧
      (objIs st.value nd = false →
        isDifferent (pyNe (set_default st nd).1.value.v w.v) = false)) := by
  refine ⟨?_, ?_, ?_, ?_⟩
  · unfold set_default
    cases hwd : is_default st
    · simp
    · simp only [if_true]
      rcases hr : reset_value {st with dflt := nd} with ⟨st2, e2⟩
      have hd2 := reset_value_dflt_eq {st with dflt := nd}
      rw [hr] at hd2
      dsimp only at hd2
      cases e2 <;> simpa using hd2
  · intro hwd
    have h1 : set_default st nd = ({st with dflt := nd}, Option.none) := by
      unfold set_default
      rw [hwd]
      rfl
    rw [h1]
    exact ⟨rfl, rfl, rfl⟩
  · intro hwd hro
    have h2 : reset_value {st with dflt := nd} = ({st with dflt := nd}, Option.none) := by
      unfold reset_value
      simp [hro]
    unfold set_default
    rw [hwd]
    simp only [if_true]
    rw [h2]
  · intro hwd hro hc
    cases hob : objIs st.value nd
    · have hguard : is_default ({st with dflt := nd} : ParamState) = false := by
        simpa [is_default] using hob
      have h2 : reset_value {st with dflt := nd} =
          paramSet {st with dflt := nd, isset := true} nd false := by
        unfold reset_value
        rw [hguard]
        simp only [Bool.not_false, Bool.true_and]
        rw [hro]
        rfl
      have h3 : paramSet {st with dflt := nd, isset := true} nd false =
          (if isDifferent (pyNe st.value.v w.v) then
            ({st with dflt := nd, isset := true, value := w, nextId := n'}, Option.none)
          else ({st with dflt := nd, isset := true, nextId := n'}, Option.none)) := by
        unfold paramSet
        rw [hc]
        simp [hro]
      cases hdiff : isDifferent (pyNe st.value.v w.v)
      · have h4 : set_default st nd =
            ({st with dflt := nd, isset := false, nextId := n'}, Option.none) := by
          unfold set_default
          rw [hwd]
          simp only [if_true]
          rw [h2, h3, if_neg (by simp [hdiff])]
        rw [h4]
        simp [hdiff, hob]
      · have h4 : set_default st nd =
            ({st with dflt := nd, isset := false, value := w, nextId := n'}, Option.none) := by
          unfold set_default
          rw [hwd]
          simp only [if_true]
          rw [h2, h3, if_pos (by simp [hdiff])]
        rw [h4]
        simp [hdiff, hob, isDifferent_pyNe_self]
    · have hguard : is_default ({st with dflt := nd} : ParamState) = true := by
        simpa [is_default] using hob
      have h2 : reset_value {st with dflt := nd} = ({st with dflt := nd}, Option.none) := by
        unfold reset_value
        rw [hguard]
        rfl
      have h4 : set_default st nd = ({st with dflt := nd, isset := false}, Option.none) := by
        unfold set_default
        rw [hwd]
        simp only [if_true]
        rw [h2]
      rw [h4]
      simp [hob]

/-- Witness for C4, one concrete instance per branch: replacing the
default `5` (to which a writable parameter is bound) by the distinct
object `8` installs `8` with `explicitlySet = false` and raises nothing;
on a parameter holding an explicitly set `9`, the replacement leaves
`current = 9` and `explicitlySet = true` untouched; on a read-only
parameter bound to its default, the replacement keeps the old `5` current
while still forcing `explicitlySet = false`. -/
theorem C4_setDefault_witness :
    (set_default
      { dflt := ⟨.int 5, 1⟩, ro := false, constraints := Option.none, value := ⟨.int 5, 1⟩,
        isset := false, name := PyVal.none, doc := Option.none, metadata := [], nextId := 7 }
      ⟨.int 8, 2⟩).1.dflt = ⟨.int 8, 2⟩ ∧
    (set_default
      { dflt := ⟨.int 5, 1⟩, ro := false, constraints := Option.none, value := ⟨.int 5, 1⟩,
        isset := false, name := PyVal.none, doc := Option.none, metadata := [], nextId := 7 }
      ⟨.int 8, 2⟩).2 = Option.none ∧
    (set_default
      { dflt := ⟨.int 5, 1⟩, ro := false, constraints := Option.none, value := ⟨.int 5, 1⟩,
        isset := false, name := PyVal.none, doc := Option.none, metadata := [], nextId := 7 }
      ⟨.int 8, 2⟩).1.isset = false ∧
    isDifferent (pyNe (set_default
      { dflt := ⟨.int 5, 1⟩, ro := false, constraints := Option.none, value := ⟨.int 5, 1⟩,
        isset := false, name := PyVal.none, doc := Option.none, metadata := [], nextId := 7 }
      ⟨.int 8, 2⟩).1.value.v (PyVal.int 8)) = false ∧
    (set_default
      { dflt := ⟨.int 5, 1⟩, ro := false, constraints := Option.none, value := ⟨.int 9, 3⟩,
        isset := true, name := PyVal.none, doc := Option.none, metadata := [], nextId := 7 }
      ⟨.int 8, 2⟩).1.value = ⟨.int 9, 3⟩ ∧
    (set_default
      { dflt := ⟨.int 5, 1⟩, ro := false, constraints := Option.none, value := ⟨.int 9, 3⟩,
        isset := true, name := PyVal.none, doc := Option.none, metadata := [], nextId := 7 }
      ⟨.int 8, 2⟩).1.isset = true ∧
    set_default
      { dflt := ⟨.int 5, 1⟩, ro := true, constraints := Option.none, value := ⟨.int 5, 1⟩,
        isset := false, name := PyVal.none, doc := Option.none, metadata := [], nextId := 7 }
      ⟨.int 8, 2⟩ =
      ({ dflt := ⟨.int 8, 2⟩, ro := true, constraints := Option.none, value := ⟨.int 5, 1⟩,
         isset := false, name := PyVal.none, doc := Option.none, metadata := [], nextId := 7 },
       Option.none) := by
  have hD := C4_setDefault
    { dflt := ⟨.int 5, 1⟩, ro := false, constraints := Option.none, value := ⟨.int 5, 1⟩,
      isset := false, name := PyVal.none, doc := Option.none, metadata := [], nextId := 7 }
    ⟨.int 8, 2⟩ ⟨.int 8, 2⟩ 7
  have hB := C4_setDefault
    { dflt := ⟨.int 5, 1⟩, ro := false, constraints := Option.none, value := ⟨.int 9, 3⟩,
      isset := true, name := PyVal.none, doc := Option.none, metadata := [], nextId := 7 }
    ⟨.int 8, 2⟩ ⟨.int 8, 2⟩ 7
  have hC := C4_setDefault
    { dflt := ⟨.int 5, 1⟩, ro := true, constraints := Option.none, value := ⟨.int 5, 1⟩,
      isset := false, name := PyVal.none, doc := Option.none, metadata := [], nextId := 7 }
    ⟨.int 8, 2⟩ ⟨.int 8, 2⟩ 7
  exact ⟨hD.1, (hD.2.2.2 rfl rfl rfl).1, (hD.2.2.2 rfl rfl rfl).2.1,
    (hD.2.2.2 rfl rfl rfl).2.2.2 rfl, (hB.2.1 rfl).1, (hB.2.1 rfl).2.1,
    hC.2.2.1 rfl rfl⟩

/-- Counterexample for C4 as stated: two refutations of `installs
newDefault as the current value` in the `wasDefault` case.  On a read-only
parameter bound to its default `7`, `set_default 9` replaces the default
and forces `explicitlySet = false` but leaves `current = 7` (the reset is
skipped for read-only parameters).  On a writable parameter with an
`IntCoerce` constraint bound to its default `7`, `set_default "5"`
installs the coerced `int 5`, which is not equal to the new default
`"5"`. -/
theorem C4_counterexample :
    is_default (paramInit ⟨.int 7, 1⟩ Option.none true noneObj PyVal.none Option.none [] 10).1 =
      true ∧
    (set_default (paramInit ⟨.int 7, 1⟩ Option.none true noneObj PyVal.none Option.none [] 10).1
      ⟨.int 9, 2⟩).2 = Option.none ∧
    (set_default (paramInit ⟨.int 7, 1⟩ Option.none true noneObj PyVal.none Option.none [] 10).1
      ⟨.int 9, 2⟩).1.dflt.v = PyVal.int 9 ∧
    (set_default (paramInit ⟨.int 7, 1⟩ Option.none true noneObj PyVal.none Option.none [] 10).1
      ⟨.int 9, 2⟩).1.value.v = PyVal.int 7 ∧
    (set_default (paramInit ⟨.int 7, 1⟩ Option.none true noneObj PyVal.none Option.none [] 10).1
      ⟨.int 9, 2⟩).1.isset = false ∧
    equal_default (set_default (paramInit ⟨.int 7, 1⟩ Option.none true noneObj PyVal.none
      Option.none [] 10).1 ⟨.int 9, 2⟩).1 = false ∧
    is_default (paramInit ⟨.int 7, 3⟩ (some .ensureInt) false noneObj PyVal.none Option.none
      [] 10).1 = true ∧
    (set_default (paramInit ⟨.int 7, 3⟩ (some .ensureInt) false noneObj PyVal.none Option.none
      [] 10).1 ⟨.str "5", 4⟩).2 = Option.none ∧
    (set_default (paramInit ⟨.int 7, 3⟩ (some .ensureInt) false noneObj PyVal.none Option.none
      [] 10).1 ⟨.str "5", 4⟩).1.value.v = PyVal.int 5 ∧
    (set_default (paramInit ⟨.int 7, 3⟩ (some .ensureInt) false noneObj PyVal.none Option.none
      [] 10).1 ⟨.str "5", 4⟩).1.isset = false ∧
    equal_default (set_default (paramInit ⟨.int 7, 3⟩ (some .ensureInt) false noneObj PyVal.none
      Option.none [] 10).1 ⟨.str "5", 4⟩).1 = false := by
  exact ⟨rfl, rfl, rfl, rfl, rfl, rfl, rfl, rfl, rfl, rfl, rfl⟩

/-! ## Claim C5: the reserved metadata key -/

/-- The outcome of `_set` does not depend on the stored metadata. -/
theorem paramSet_metadata (st : ParamState) (m m' : List (String × PyVal)) (o : Obj) (i : Bool) :
    (paramSet {st with metadata := m} o i).2 = (paramSet {st with metadata := m'} o i).2 := by
  unfold paramSet
  rcases h : applyConstraints st.constraints o st.nextId with ⟨e | r, n2⟩
  · simp [h]
  · simp only [h]
    by_cases hro : (st.ro && !i) = true
    · simp [hro]
    · simp only [Bool.not_eq_true] at hro
      cases hdiff : isDifferent (pyNe st.value.v r.v) <;> simp [hro, hdiff]

/-- The error component of `__init__`: the install step's error if any,
else the debug check for the reserved keyword name `'val'`. -/
theorem paramInit_snd (d : Obj) (cs : Option Constraint) (ro : Bool) (v : Obj) (nm : PyVal)
    (dc : Option String) (kw : List (String × PyVal)) (n : Nat) :
    (paramInit d cs ro v nm dc kw n).2 =
      (match (paramSet (initState d cs ro nm dc kw n)
          (if v.v = PyVal.none then d else v) true).2 with
       | some e => some e
       | Option.none =>
         if kw.any (fun p => p.1 = "val") then
           some (PyErr.valueError "'val' property name is illegal.")
         else Option.none) := by
  unfold paramInit indexedCollectableInit initState
  by_cases hv : v.v = PyVal.none
  · simp only [hv, if_true, if_pos]
    rcases hps : paramSet
      { dflt := d, ro := ro, constraints := cs, value := noneObj, isset := false,
        name := nm, doc := dc, metadata := kw, nextId := n } d true with ⟨st1, e⟩
    cases e
    · by_cases hk : (kw.any fun kv => decide (kv.1 = "val")) = true <;> simp [hk]
    · simp
  · simp only [hv, if_false, if_neg hv]
    rcases hps : paramSet
      { dflt := d, ro := ro, constraints := cs, value := noneObj, isset := false,
        name := nm, doc := dc, metadata := kw, nextId := n } v true with ⟨st1, e⟩
    cases e
    · by_cases hk : (kw.any fun kv => decide (kv.1 = "val")) = true <;> simp [hk]
    · simp

/-- Claim C5 (corrected; the reserved key is `'val'`, not `"value"`, and
the failure is the debug-mode `ValueError`, the spec's `ConfigError`): a
construction whose metadata avoids the key `'val'` fails exactly when the
same construction with no metadata fails — no failure is ever due to a
reserved key, and a metadata key `"value"` cannot even reach the keyword
extras, being a declared parameter of `__init__` — while a construction
whose metadata contains `'val'` and whose install step succeeds fails with
`ValueError("'val' property name is illegal.")`. -/
theorem C5_reserved (d : Obj) (cs : Option Constraint) (ro : Bool) (v : Obj) (nm : PyVal)
    (dc : Option String) (kw1 kw2 : List (String × PyVal)) (n : Nat) :
    (kw1.any (fun p => p.1 = "val") = false →
      (paramInit d cs ro v nm dc kw1 n).2 = (paramInit d cs ro v nm dc [] n).2) ∧
    (kw2.any (fun p => p.1 = "val") = true →
      (paramInit d cs ro v nm dc [] n).2 = Option.none →
      (paramInit d cs ro v nm dc kw2 n).2 =
        some (PyErr.valueError "'val' property name is illegal.")) := by
  have hbase : ∀ (kw : List (String × PyVal)),
      (paramSet (initState d cs ro nm dc kw n) (if v.v = PyVal.none then d else v) true).2 =
      (paramSet (initState d cs ro nm dc [] n) (if v.v = PyVal.none then d else v) true).2 :=
    fun kw => paramSet_metadata (initState d cs ro nm dc [] n) kw []
      (if v.v = PyVal.none then d else v) true
  constructor
  · intro h1
    rw [paramInit_snd, paramInit_snd, hbase kw1]
    rcases hE : (paramSet (initState d cs ro nm dc [] n)
        (if v.v = PyVal.none then d else v) true).2 with _ | e
    · simp [h1]
    · simp
  · intro h2 hok
    rw [paramInit_snd] at hok
    rw [paramInit_snd, hbase kw2]
    rcases hE : (paramSet (initState d cs ro nm dc [] n)
        (if v.v = PyVal.none then d else v) true).2 with _ | e
    · simp [h2]
    · rw [hE] at hok
      simp at hok

/-- Witness for C5: metadata `{'allowedtype': 'x'}` (no `'val'`) behaves
exactly like no metadata, and metadata `{'val': 1}` makes the otherwise
successful construction fail with the reserved-name `ValueError`. -/
theorem C5_reserved_witness :
    (paramInit ⟨.int 0, 1⟩ Option.none false noneObj PyVal.none Option.none
      [("allowedtype", .str "x")] 5).2 =
      (paramInit ⟨.int 0, 1⟩ Option.none false noneObj PyVal.none Option.none [] 5).2 ∧
    (paramInit ⟨.int 0, 1⟩ Option.none false noneObj PyVal.none Option.none
      [("val", .int 1)] 5).2 =
      some (PyErr.valueError "'val' property name is illegal.") := by
  exact ⟨(C5_reserved ⟨.int 0, 1⟩ Option.none false noneObj PyVal.none Option.none
      [("allowedtype", .str "x")] [("val", .int 1)] 5).1 rfl,
    (C5_reserved ⟨.int 0, 1⟩ Option.none false noneObj PyVal.none Option.none
      [("allowedtype", .str "x")] [("val", .int 1)] 5).2 rfl rfl⟩

/-- Counterexample for C5 as stated: a construction whose metadata does not
contain the key `"value"` nonetheless fails for the reserved-key reason —
the key the code reserves is `'val'`. -/
theorem C5_counterexample :
    (paramInit ⟨.int 0, 1⟩ Option.none false noneObj PyVal.none Option.none
      [("val", .int 1)] 5).2 = some (PyErr.valueError "'val' property name is illegal.") ∧
    List.any [("val", PyVal.int 1)] (fun p => p.1 = "value") = false := by
  exact ⟨rfl, rfl⟩

/-! ## Claim C8: distinguishable error kinds -/

/-- Claim C8 (confirmed): `RangeCheck(min=7,max=44)` fails on `50` with the
range-violation error and accepts `10`; `ChoiceCheck({'a','b'})` fails on
`'c'` with the choice-violation error and accepts `'a'`; the type checks
fail with their own errors; exhausted OR-alternation fails with
`ValidationError`; and all these error values are pairwise distinct (the
range/choice/type kinds share the Python class `ValueError` but carry
distinct kind-specific messages, and `ValidationError` is a distinct
class), so callers can branch on the kind. -/
theorem C8_error_kinds :
    applyC (.ensureRange (some (.int 7)) (some (.int 44))) ⟨.int 50, 1⟩ 5 =
      (Except.error (PyErr.valueError "Value must be at most 44"), 5) ∧
    applyC (.ensureRange (some (.int 7)) (some (.int 44))) ⟨.int 10, 1⟩ 5 =
      (Except.ok ⟨.int 10, 1⟩, 5) ∧
    applyC (.ensureChoice [.str "a", .str "b"]) ⟨.str "c", 1⟩ 5 =
      (Except.error (PyErr.valueError "Value is not in ['a', 'b']"), 5) ∧
    applyC (.ensureChoice [.str "a", .str "b"]) ⟨.str "a", 1⟩ 5 =
      (Except.ok ⟨.str "a", 1⟩, 5) ∧
    applyC .ensureBool ⟨.int 5, 1⟩ 5 =
      (Except.error (PyErr.valueError "Value must be of type bool"), 5) ∧
    applyC .ensureInt ⟨.str "c", 1⟩ 5 =
      (Except.error (PyErr.valueError "invalid literal for int() with base 10: 'c'"), 5) ∧
    applyC (.orC [some .ensureBool, some (.ensureChoice [.int 3])]) ⟨.str "x", 1⟩ 5 =
      (Except.error allViolatedErr, 5) ∧
    (PyErr.valueError "Value must be at most 44" ≠
      PyErr.valueError "Value is not in ['a', 'b']") ∧
    (PyErr.valueError "Value must be at most 44" ≠
      PyErr.valueError "Value must be of type bool") ∧
    (PyErr.valueError "Value is not in ['a', 'b']" ≠
      PyErr.valueError "Value must be of type bool") ∧
    (allViolatedErr ≠ PyErr.valueError "Value must be at most 44") ∧
    (allViolatedErr ≠ PyErr.valueError "Value is not in ['a', 'b']") ∧
    (allViolatedErr ≠ PyErr.valueError "Value must be of type bool") := by
  exact ⟨rfl, rfl, rfl, rfl, rfl, rfl, rfl, by decide, by decide, by decide,
    by decide, by decide, by decide⟩

/-! ## Claim C9: the allowed-type annotation in generated documentation -/

/-- Claim C9 (code bug): the parameter is constructed with the metadata
entry `allowedtype = 'str'`, yet the generated documentation's first line
is the bare name `p`, not `p : str`: `_paramdoc` tests
`hasattr(paramsdoc, 'allowedtype')` on the just-built name string — which
can never hold — instead of `hasattr(self, 'allowedtype')`, the attribute
its own body then reads.  The claim (and the class docstring advertising
`allowedtype`) describe the evident intent; the guard's receiver is a
slip. -/
theorem C9_allowedtype_bug :
    List.lookup "allowedtype"
      (paramInit ⟨.int 0, 1⟩ Option.none false noneObj (.str "p") Option.none
        [("allowedtype", .str "str")] 5).1.metadata = some (PyVal.str "str") ∧
    paramdoc (paramInit ⟨.int 0, 1⟩ Option.none false noneObj (.str "p") Option.none
      [("allowedtype", .str "str")] 5).1 "  " 70 = "p" ∧
    firstLine (paramdoc (paramInit ⟨.int 0, 1⟩ Option.none false noneObj (.str "p") Option.none
      [("allowedtype", .str "str")] 5).1 "  " 70) ≠ "p : str" := by
  exact ⟨rfl, rfl, by decide⟩

/-! ## Claim C10: a null initial override is the same as omitting it -/

theorem ensureIntApply_not_badNone (o : Obj) (n : Nat) (w : Obj) (n' : Nat)
    (h : ensureIntApply o n = (Except.ok w, n')) : badNone w.v = false := by
  rcases o with ⟨v, i⟩
  cases v <;> simp only [ensureIntApply] at h
  case none => exact absurd h (by simp)
  case bool b =>
    obtain ⟨h1, h2⟩ := Prod.mk.injEq .. ▸ h
    rw [← (Except.ok.injEq ..).mp h1]
    simp [badNone]
  case int m =>
    obtain ⟨h1, h2⟩ := Prod.mk.injEq .. ▸ h
    rw [← (Except.ok.injEq ..).mp h1]
    simp [badNone]
  case float q =>
    obtain ⟨h1, h2⟩ := Prod.mk.injEq .. ▸ h
    rw [← (Except.ok.injEq ..).mp h1]
    simp [badNone]
  case str s =>
    rcases hp : parseIntPy s with _ | m <;> rw [hp] at h
    · exact absurd h (by simp)
    · obtain ⟨h1, h2⟩ := Prod.mk.injEq .. ▸ h
      rw [← (Except.ok.injEq ..).mp h1]
      simp [badNone]
  case list xs =>
    rcases hm : xs.mapM intOfScalar with e | ms <;> rw [hm] at h
    · exact absurd h (by simp)
    · obtain ⟨h1, h2⟩ := Prod.mk.injEq .. ▸ h
      rw [← (Except.ok.injEq ..).mp h1]
      simp [badNone]
  case arr xs =>
    rcases hm : xs.mapM intOfScalar with e | ms <;> rw [hm] at h
    · exact absurd h (by simp)
    · obtain ⟨h1, h2⟩ := Prod.mk.injEq .. ▸ h
      rw [← (Except.ok.injEq ..).mp h1]
      simp [badNone]

theorem ensureFloatApply_not_badNone (o : Obj) (n : Nat) (w : Obj) (n' : Nat)
    (h : ensureFloatApply o n = (Except.ok w, n')) : badNone w.v = false := by
  rcases o with ⟨v, i⟩
  cases v <;> simp only [ensureFloatApply] at h
  case none => exact absurd h (by simp)
  case list xs => exact absurd h (by simp)
  case arr xs => exact absurd h (by simp)
  case bool b =>
    obtain ⟨h1, h2⟩ := Prod.mk.injEq .. ▸ h
    rw [← (Except.ok.injEq ..).mp h1]
    simp [badNone]
  case int m =>
    obtain ⟨h1, h2⟩ := Prod.mk.injEq .. ▸ h
    rw [← (Except.ok.injEq ..).mp h1]
    simp [badNone]
  case float q =>
    obtain ⟨h1, h2⟩ := Prod.mk.injEq .. ▸ h
    rw [← (Except.ok.injEq ..).mp h1]
    simp [badNone]
  case str s =>
    rcases hp : parseFloatPy s with _ | q <;> rw [hp] at h
    · exact absurd h (by simp)
    · obtain ⟨h1, h2⟩ := Prod.mk.injEq .. ▸ h
      rw [← (Except.ok.injEq ..).mp h1]
      simp [badNone]

theorem ensureRangeApply_ok_eq (mn mx : Option PyVal) (o : Obj) (n : Nat) (w : Obj) (n' : Nat)
    (h : ensureRangeApply mn mx o n = (Except.ok w, n')) : w = o := by
  rcases mn with _ | m <;> rcases mx with _ | mmax <;> simp only [ensureRangeApply] at h
  · exact ((Except.ok.injEq ..).mp (Prod.mk.injEq .. ▸ h).1).symm
  · rcases hg : pyGtE o.v mmax with e | b <;> rw [hg] at h
    · exact absurd h (by simp)
    · cases b <;> simp_all
  · rcases hl : pyLtE o.v m with e | b <;> rw [hl] at h
    · exact absurd h (by simp)
    · cases b <;> simp_all
  · rcases hl : pyLtE o.v m with e | b <;> rw [hl] at h
    · exact absurd h (by simp)
    · cases b
      · rcases hg : pyGtE o.v mmax with e | bb <;> rw [hg] at h
        · exact absurd h (by simp)
        · cases bb <;> simp_all
      · simp_all

mutual

theorem applyC_preserves_badNone (c : Constraint) (o : Obj) (n : Nat) (w : Obj) (n' : Nat)
    (ho : badNone o.v = false) (h : applyC c o n = (Except.ok w, n')) :
    badNone w.v = false := by
  cases c with
  | ensureValue =>
    simp only [applyC] at h
    obtain ⟨h1, h2⟩ := Prod.mk.injEq .. ▸ h
    rw [← (Except.ok.injEq ..).mp h1]
    exact ho
  | ensureInt => exact ensureIntApply_not_badNone o n w n' (by simpa [applyC] using h)
  | ensureFloat => exact ensureFloatApply_not_badNone o n w n' (by simpa [applyC] using h)
  | ensureBool =>
    rcases o with ⟨v, i⟩
    cases v <;> simp only [applyC] at h
    case bool b =>
      obtain ⟨h1, h2⟩ := Prod.mk.injEq .. ▸ h
      rw [← (Except.ok.injEq ..).mp h1]
      exact ho
    all_goals exact absurd h (by simp)
  | ensureChoice allowed =>
    simp only [applyC] at h
    by_cases hm : choiceMember o.v allowed = true
    · rw [if_pos hm] at h
      obtain ⟨h1, h2⟩ := Prod.mk.injEq .. ▸ h
      rw [← (Except.ok.injEq ..).mp h1]
      exact ho
    · rw [if_neg hm] at h
      exact absurd h (by simp)
  | ensureRange mn mx =>
    have := ensureRangeApply_ok_eq mn mx o n w n' (by simpa [applyC] using h)
    rw [this]
    exact ho
  | orC cs =>
    have hne : o.v ≠ PyVal.none := by
      intro hh
      rw [hh] at ho
      simp [badNone] at ho
    simp only [applyC] at h
    rw [if_neg hne] at h
    exact orLoop_preserves_badNone cs o n w n' ho h
  | andC cs =>
    simp only [applyC] at h
    exact andLoop_preserves_badNone cs o n w n' ho h

theorem orLoop_preserves_badNone (cs : List (Option Constraint)) (o : Obj) (n : Nat)
    (w : Obj) (n' : Nat) (ho : badNone o.v = false)
    (h : orLoop cs o n = (Except.ok w, n')) : badNone w.v = false := by
  cases cs with
  | nil =>
    simp only [orLoop] at h
    exact absurd h (by simp)
  | cons c rest =>
    simp only [orLoop] at h
    rcases hoc : applyOC c o n with ⟨e | r, n2⟩ <;> rw [hoc] at h
    · exact orLoop_preserves_badNone rest o n2 w n' ho h
    · obtain ⟨h1, h2⟩ := Prod.mk.injEq .. ▸ h
      rw [← (Except.ok.injEq ..).mp h1]
      exact applyOC_preserves_badNone c o n r n2 ho hoc

theorem andLoop_preserves_badNone (cs : List (Option Constraint)) (o : Obj) (n : Nat)
    (w : Obj) (n' : Nat) (ho : badNone o.v = false)
    (h : andLoop cs o n = (Except.ok w, n')) : badNone w.v = false := by
  cases cs with
  | nil =>
    simp only [andLoop] at h
    obtain ⟨h1, h2⟩ := Prod.mk.injEq .. ▸ h
    rw [← (Except.ok.injEq ..).mp h1]
    exact ho
  | cons c rest =>
    simp only [andLoop] at h
    rcases hoc : applyOC c o n with ⟨e | r, n2⟩ <;> rw [hoc] at h
    · exact absurd h (by simp)
    · have hr := applyOC_preserves_badNone c o n r n2 ho hoc
      exact andLoop_preserves_badNone rest r n2 w n' hr h

theorem applyOC_preserves_badNone (c : Option Constraint) (o : Obj) (n : Nat)
    (w : Obj) (n' : Nat) (ho : badNone o.v = false)
    (h : applyOC c o n = (Except.ok w, n')) : badNone w.v = false := by
  cases c with
  | none =>
    simp only [applyOC] at h
    exact absurd h (by simp)
  | some c => exact applyC_preserves_badNone c o n w n' ho (by simpa [applyOC] using h)

end

/-- A `_set` whose constraint application fails returns the exception and
leaves every field but the id counter untouched. -/
theorem paramSet_err_eq (st : ParamState) (x : Obj) (i : Bool) (e2 : PyErr) (n2 : Nat)
    (hc : applyConstraints st.constraints x st.nextId = (Except.error e2, n2)) :
    paramSet st x i = ({st with nextId := n2}, some e2) := by
  unfold paramSet
  rw [hc]

/-- The initialization `_set` on an empty (`None`) slot installs the
constraint-applied value (when that value is visible against the empty
slot) and leaves `_isset` false. -/
theorem paramSet_init_install (st : ParamState) (x w : Obj) (n2 : Nat)
    (hv : st.value.v = PyVal.none) (hbadw : badNone w.v = false)
    (hc : applyConstraints st.constraints x st.nextId = (Except.ok w, n2)) :
    paramSet st x true = ({st with value := w, isset := false, nextId := n2}, Option.none) := by
  unfold paramSet
  rw [hc]
  have hdiff : isDifferent (pyNe st.value.v w.v) = true := by
    rw [hv]
    exact isDifferent_pyNe_none w.v hbadw
  simp [hdiff]

/-- Claim C10 (confirmed): passing an explicit `None` as the `value`
override to the constructor is indistinguishable from omitting it — the
construction equals, state and error alike, one that installs the default
through the same initialization path (the first conjunct even holds for
the default passed explicitly as the override).  Consequently, when the
default is non-null (and not a numpy object array of `None`s, which the
empty-slot comparison cannot see) a successful construction never leaves
`None` installed: the default, not the null override, is what gets
installed. -/
theorem C10_null_override (d : Obj) (cs : Option Constraint) (ro : Bool) (nm : PyVal)
    (dc : Option String) (kw : List (String × PyVal)) (n k : Nat) :
    paramInit d cs ro ⟨PyVal.none, k⟩ nm dc kw n = paramInit d cs ro d nm dc kw n ∧
    (badNone d.v = false →
      (paramInit d cs ro ⟨PyVal.none, k⟩ nm dc kw n).2 = Option.none →
      (paramInit d cs ro ⟨PyVal.none, k⟩ nm dc kw n).1.value.v ≠ PyVal.none) := by
  constructor
  · unfold paramInit indexedCollectableInit
    by_cases hd : d.v = PyVal.none <;> simp [hd]
  · intro hbad hok
    have hw : ∀ (w : Obj) (n2 : Nat), applyConstraints cs d n = (Except.ok w, n2) →
        badNone w.v = false := by
      intro w n2 hc
      cases cs with
      | none =>
        simp only [applyConstraints] at hc
        obtain ⟨h1, h2⟩ := Prod.mk.injEq .. ▸ hc
        rw [← (Except.ok.injEq ..).mp h1]
        exact hbad
      | some c =>
        exact applyC_preserves_badNone c d n w n2 hbad (by simpa [applyConstraints] using hc)
    unfold paramInit indexedCollectableInit at hok ⊢
    dsimp only at hok ⊢
    rw [if_pos rfl] at hok ⊢
    rcases hps : paramSet
      { dflt := d, ro := ro, constraints := cs, value := noneObj, isset := false,
        name := nm, doc := dc, metadata := kw, nextId := n } d true with ⟨st1, e⟩
    rw [hps] at hok
    cases e with
    | some err => simp at hok
    | none =>
      by_cases hk : (kw.any fun kv => decide (kv.1 = "val")) = true
      · simp [hk] at hok
      · rw [if_neg hk]
        rcases hcc : applyConstraints cs d n with ⟨e2 | w, n2⟩
        · rw [paramSet_err_eq _ d true e2 n2 hcc] at hps
          simp at hps
        · have hwv : badNone w.v = false := hw w n2 hcc
          rw [paramSet_init_install _ d w n2 rfl hwv hcc] at hps
          obtain ⟨h1, h2⟩ := Prod.mk.injEq .. ▸ hps
          rw [← h1]
          dsimp only
          intro heq
          rw [heq] at hwv
          simp [badNone] at hwv

/-- Witness for C10: with default `5` and an explicit `None` override, the
construction equals the default-installing one, succeeds, and installs the
non-null `5`. -/
theorem C10_null_override_witness :
    paramInit ⟨.int 5, 1⟩ Option.none false ⟨PyVal.none, 9⟩ PyVal.none Option.none [] 10 =
      paramInit ⟨.int 5, 1⟩ Option.none false ⟨.int 5, 1⟩ PyVal.none Option.none [] 10 ∧
    (paramInit ⟨.int 5, 1⟩ Option.none false ⟨PyVal.none, 9⟩ PyVal.none Option.none [] 10).2 =
      Option.none ∧
    (paramInit ⟨.int 5, 1⟩ Option.none false ⟨PyVal.none, 9⟩ PyVal.none
      Option.none [] 10).1.value.v ≠ PyVal.none := by
  have h := C10_null_override ⟨.int 5, 1⟩ Option.none false PyVal.none Option.none [] 10 9
  exact ⟨h.1, rfl, h.2 rfl rfl⟩
